import Mathlib

/-!
Shallow embedding of the perun CLI front end (github.com/afronski/perun):
the cliparser package (`src/cliparser/cliparser.go`), the mode dispatch of
`src/main.go`, and the configuration wizard (`src/configurator/configurator.go`).

Machine integers (Go `int64`, `int`) are embedded as `Int`; Go strings as
`String`; Go pointers held in the `CliArguments` struct as `Option` values
(`none` = nil pointer, i.e. the field was never assigned); `map[string]string`
as an association list in source order.
-/

namespace Perun

/-! ### Mode name constants (cliparser.go, package-level vars) -/

def ValidateMode : String := "validate"
def ConvertMode : String := "convert"
def OfflineValidateMode : String := "validate_offline"
def ConfigureMode : String := "configure"
def CreateStackMode : String := "create-stack"
def DestroyStackMode : String := "delete-stack"
def UpdateStackMode : String := "update-stack"
def MfaMode : String := "mfa"
def SetupSinkMode : String := "setup-remote-sink"
def DestroySinkMode : String := "destroy-remote-sink"
def CreateParametersMode : String := "create-parameters"
def SetStackPolicyMode : String := "set-stack-policy"

/-- The Go struct `CliArguments` from cliparser.go.  Every field of the Go
struct is a pointer; `none` models a nil pointer (field never assigned by the
mode switch), `some v` a pointer to the parsed value `v`. -/
structure CliArguments where
  Mode : Option String := none
  TemplatePath : Option String := none
  Parameters : Option (List (String × String)) := none
  OutputFilePath : Option String := none
  ConfigurationPath : Option String := none
  Quiet : Option Bool := none
  Yes : Option Bool := none
  Verbosity : Option String := none
  MFA : Option Bool := none
  DurationForMFA : Option Int := none
  Profile : Option String := none
  Region : Option String := none
  Sandbox : Option Bool := none
  Stack : Option String := none
  Capabilities : Option (List String) := none
  PrettyPrint : Option Bool := none
  Progress : Option Bool := none
  ParametersFile : Option String := none
  Block : Option Bool := none
  Unblock : Option Bool := none
  DisableStackTermination : Option Bool := none
  EnableStackTermination : Option Bool := none
deriving Repr, DecidableEq

/-- Per-invocation parse state: the values the kingpin flag/arg clauses of
`ParseCliArguments` hold after a successful parse.  Defaults are kingpin's
documented defaults (false / empty string / 0 / empty collection). -/
structure ParsedFlags where
  quiet : Bool := false
  yes : Bool := false
  verbosity : String := ""
  mfa : Bool := false
  durationForMFA : Int := 0
  profile : String := ""
  region : String := ""
  sandbox : Bool := false
  configurationPath : String := ""
  progress : Bool := false
  prettyPrint : Bool := false
  capabilities : List String := []
  parameters : List (String × String) := []
  parametersFile : String := ""
  block : Bool := false
  unblock : Bool := false
  disableStackTermination : Bool := false
  enableStackTermination : Bool := false
  positionals : List String := []
deriving Repr, DecidableEq

/-- The command names declared on the kingpin application in
`ParseCliArguments`, in declaration order. -/
def commandNames : List String :=
  [ValidateMode, OfflineValidateMode, ConvertMode, ConfigureMode,
   CreateStackMode, DestroyStackMode, UpdateStackMode, MfaMode,
   SetupSinkMode, DestroySinkMode, CreateParametersMode, SetStackPolicyMode]

/-- Number of positional argument clauses declared for each command in
`ParseCliArguments` (e.g. create-stack declares `stack` and `template`). -/
def declaredPositionals (cmd : String) : Nat :=
  if cmd = ValidateMode then 1
  else if cmd = OfflineValidateMode then 1
  else if cmd = ConvertMode then 2
  else if cmd = CreateStackMode then 2
  else if cmd = DestroyStackMode then 1
  else if cmd = UpdateStackMode then 2
  else if cmd = CreateParametersMode then 2
  else if cmd = SetStackPolicyMode then 2
  else 0

/-- Number of positional arguments marked `Required()` for each command:
only create-stack requires both `stack` and `template`. -/
def requiredPositionals (cmd : String) : Nat :=
  if cmd = CreateStackMode then 2 else 0

/-- Flags whose clause consumes a value token. -/
inductive ValueFlag
  | verbosityF | durationF | profileF | regionF | configF
  | capabilitiesF | parameterF | parametersFileF
deriving Repr, DecidableEq

/-- What a flag token means for the current command. -/
inductive FlagAction
  | setter (g : ParsedFlags → ParsedFlags)
  | value (f : ValueFlag)
  | unknown

/-- Modelled from the spec: kingpin's short-flag aliases, as declared in
`ParseCliArguments` via `.Short(...)` (the kingpin library itself is a
third-party dependency not in this repository). -/
def shortToLong (s : String) : String :=
  if s = "q" then "quiet"
  else if s = "y" then "yes"
  else if s = "v" then "verbosity"
  else if s = "d" then "duration"
  else if s = "p" then "profile"
  else if s = "r" then "region"
  else if s = "c" then "config"
  else s

/-- String prefix test over the character list (the kernel-computable
equivalent of `String.startsWith`). -/
def strStarts (s pre : String) : Bool :=
  s.data.take pre.data.length = pre.data

/-- Modelled from the spec: a token is a flag when it starts with a dash
(kingpin grammar, §4.1 of the spec). -/
def isFlagToken (tok : String) : Bool :=
  strStarts tok "-" && tok ≠ "-"

/-- The long flag name carried by a flag token. -/
def flagName (tok : String) : String :=
  if strStarts tok "--" then tok.drop 2 else shortToLong (tok.drop 1)

/-- Decimal digit run to a number, most significant first; `none` on a
non-digit character. -/
def parseDigits : List Char → Nat → Option Nat
  | [], acc => some acc
  | c :: rest, acc =>
    if '0' ≤ c ∧ c ≤ '9' then parseDigits rest (acc * 10 + (c.toNat - 48))
    else none

/-- Modelled from the spec: integer syntax accepted for the `--duration`
value (kingpin's Int64 clause, i.e. base-10 `strconv.ParseInt`: an optional
sign followed by at least one decimal digit). -/
def parseIntStr (s : String) : Option Int :=
  match s.data with
  | [] => none
  | '-' :: rest =>
    if rest = [] then none else (parseDigits rest 0).map (fun n => -(n : Int))
  | '+' :: rest =>
    if rest = [] then none else (parseDigits rest 0).map (fun n => (n : Int))
  | cs => (parseDigits cs 0).map (fun n => (n : Int))

/-- Split at the first '=': `some (key, value)` or `none` when no '=' occurs
(the split of kingpin's StringMap clause, i.e. `strings.SplitN(s, "=", 2)`). -/
def splitEq : List Char → Option (List Char × List Char)
  | [] => none
  | c :: rest =>
    if c = '=' then some ([], rest)
    else (splitEq rest).map (fun p => (c :: p.1, p.2))

/-- Modelled from the spec: the flag grammar of `ParseCliArguments` — the
shared flags are accepted in every mode, the mode-scoped flags only in the
commands that declare them (kingpin library behavior, spec §4.1/§6). -/
def classifyFlag (cmd name : String) : FlagAction :=
  if name = "quiet" then .setter (fun st => { st with quiet := true })
  else if name = "yes" then .setter (fun st => { st with yes := true })
  else if name = "mfa" then .setter (fun st => { st with mfa := true })
  else if name = "sandbox" then .setter (fun st => { st with sandbox := true })
  else if name = "progress" then .setter (fun st => { st with progress := true })
  else if name = "verbosity" then .value .verbosityF
  else if name = "duration" then .value .durationF
  else if name = "profile" then .value .profileF
  else if name = "region" then .value .regionF
  else if name = "config" then .value .configF
  else if name = "pretty-print" ∧ (cmd = ConvertMode ∨ cmd = CreateParametersMode) then
    .setter (fun st => { st with prettyPrint := true })
  else if name = "capabilities" ∧ (cmd = CreateStackMode ∨ cmd = UpdateStackMode) then
    .value .capabilitiesF
  else if name = "parameter" ∧ (cmd = CreateStackMode ∨ cmd = CreateParametersMode) then
    .value .parameterF
  else if name = "parameters-file" ∧ cmd = CreateStackMode then .value .parametersFileF
  else if name = "block" ∧ cmd = SetStackPolicyMode then
    .setter (fun st => { st with block := true })
  else if name = "unblock" ∧ cmd = SetStackPolicyMode then
    .setter (fun st => { st with unblock := true })
  else if name = "disable-stack-termination" ∧ cmd = SetStackPolicyMode then
    .setter (fun st => { st with disableStackTermination := true })
  else if name = "enable-stack-termination" ∧ cmd = SetStackPolicyMode then
    .setter (fun st => { st with enableStackTermination := true })
  else .unknown

/-- Map-assignment semantics of Go `m[k] = v` for the association list
modelling a `map[string]string` (last value for a key wins). -/
def upsert (m : List (String × String)) (k v : String) : List (String × String) :=
  if m.any (fun p => p.1 = k) then
    m.map (fun p => if p.1 = k then (k, v) else p)
  else m ++ [(k, v)]

/-- Modelled from the spec: how each value-taking flag clause consumes its
value token (kingpin `String()/Int64()/Enums()/StringMap()` clauses declared
in `ParseCliArguments`): the duration must parse as an integer, capabilities
must belong to the two-element enumeration, `--parameter` expects KEY=VALUE. -/
def applyValue (f : ValueFlag) (tok : String) (st : ParsedFlags) :
    Except String ParsedFlags :=
  match f with
  | .verbosityF => .ok { st with verbosity := tok }
  | .profileF => .ok { st with profile := tok }
  | .regionF => .ok { st with region := tok }
  | .configF => .ok { st with configurationPath := tok }
  | .parametersFileF => .ok { st with parametersFile := tok }
  | .durationF =>
    match parseIntStr tok with
    | some n => .ok { st with durationForMFA := n }
    | none => .error ("expected integer value for --duration, got " ++ tok)
  | .capabilitiesF =>
    if tok = "CAPABILITY_IAM" ∨ tok = "CAPABILITY_NAMED_IAM" then
      .ok { st with capabilities := st.capabilities ++ [tok] }
    else .error ("enum value must be one of CAPABILITY_IAM,CAPABILITY_NAMED_IAM, got " ++ tok)
  | .parameterF =>
    match splitEq tok.data with
    | some (k, v) =>
      .ok { st with parameters := upsert st.parameters (String.mk k) (String.mk v) }
    | none => .error ("expected KEY=VALUE got " ++ tok)

/-- Modelled from the spec: kingpin's token loop for the tokens that follow
the command name.  `pending` records a value-taking flag waiting for its
value; positional tokens are bound in declaration order and a surplus
positional is a parse failure (spec §4.1). -/
def processTokens (cmd : String) :
    List String → Option ValueFlag → ParsedFlags → Except String ParsedFlags
  | [], some f, _ => .error ("expected argument for flag " ++ reprStr f)
  | [], none, st => .ok st
  | tok :: rest, some f, st =>
    match applyValue f tok st with
    | .ok st2 => processTokens cmd rest none st2
    | .error e => .error e
  | tok :: rest, none, st =>
    if isFlagToken tok then
      match classifyFlag cmd (flagName tok) with
      | .setter g => processTokens cmd rest none (g st)
      | .value f => processTokens cmd rest (some f) st
      | .unknown => .error ("unknown flag: " ++ tok)
    else
      if st.positionals.length < declaredPositionals cmd then
        processTokens cmd rest none { st with positionals := st.positionals ++ [tok] }
      else .error ("unexpected argument: " ++ tok)

/-- Modelled from the spec: `app.Parse` of the kingpin library on the
argument list after the program name — recognize exactly one mode token among
the fixed set (unrecognized or missing mode tokens are a parse failure),
process the remaining tokens against that mode's grammar, and check the
required positionals were supplied (spec §4.1). -/
def kingpinParse (tokens : List String) : Except String (String × ParsedFlags) :=
  match tokens with
  | [] => .error "command not specified"
  | cmd :: rest =>
    if cmd ∈ commandNames then
      match processTokens cmd rest none {} with
      | .error e => .error e
      | .ok st =>
        if st.positionals.length < requiredPositionals cmd then
          .error "required argument not provided"
        else .ok (cmd, st)
    else .error ("expected command but got " ++ cmd)

/-- Value of positional argument clause number `i` of the matched command
(kingpin's default for an unsupplied optional positional is the empty string). -/
def positional (st : ParsedFlags) (i : Nat) : String :=
  (st.positionals.get? i).getD ""

/-- The mode switch of `ParseCliArguments` (cliparser.go lines 140–225), with
the cases in source order — including the duplicated second
`createParameters` case.  Each case sets `Mode` and the mode-specific fields
from the matched command's flag/arg clauses. -/
def switchAssign (cmd : String) (st : ParsedFlags) (c : CliArguments) : CliArguments :=
  if cmd = ValidateMode then
    { c with Mode := some ValidateMode, TemplatePath := some (positional st 0) }
  else if cmd = OfflineValidateMode then
    { c with Mode := some OfflineValidateMode, TemplatePath := some (positional st 0) }
  else if cmd = ConvertMode then
    { c with Mode := some ConvertMode, TemplatePath := some (positional st 0),
             OutputFilePath := some (positional st 1), PrettyPrint := some st.prettyPrint }
  else if cmd = ConfigureMode then
    { c with Mode := some ConfigureMode }
  else if cmd = CreateStackMode then
    { c with Mode := some CreateStackMode, Stack := some (positional st 0),
             TemplatePath := some (positional st 1), Capabilities := some st.capabilities,
             Parameters := some st.parameters, ParametersFile := some st.parametersFile }
  else if cmd = DestroyStackMode then
    { c with Mode := some DestroyStackMode, Stack := some (positional st 0) }
  else if cmd = MfaMode then
    { c with Mode := some MfaMode }
  else if cmd = UpdateStackMode then
    { c with Mode := some UpdateStackMode, Stack := some (positional st 0),
             TemplatePath := some (positional st 1), Capabilities := some st.capabilities }
  else if cmd = CreateParametersMode then
    { c with Mode := some CreateParametersMode, TemplatePath := some (positional st 0),
             OutputFilePath := some (positional st 1), Parameters := some st.parameters,
             PrettyPrint := some st.prettyPrint }
  else if cmd = CreateParametersMode then
    { c with Mode := some CreateParametersMode, TemplatePath := some (positional st 0),
             OutputFilePath := some (positional st 1), Parameters := some st.parameters,
             PrettyPrint := some st.prettyPrint }
  else if cmd = SetStackPolicyMode then
    { c with Mode := some SetStackPolicyMode, Block := some st.block,
             Unblock := some st.unblock, Stack := some (positional st 0),
             TemplatePath := some (positional st 1),
             DisableStackTermination := some st.disableStackTermination,
             EnableStackTermination := some st.enableStackTermination }
  else if cmd = SetupSinkMode then
    { c with Mode := some SetupSinkMode }
  else if cmd = DestroySinkMode then
    { c with Mode := some DestroySinkMode }
  else c

/-- The same mode switch with the shadowed duplicate `createParameters` case
removed; used to state the unreachability of the duplicate. -/
def switchAssignDedup (cmd : String) (st : ParsedFlags) (c : CliArguments) : CliArguments :=
  if cmd = ValidateMode then
    { c with Mode := some ValidateMode, TemplatePath := some (positional st 0) }
  else if cmd = OfflineValidateMode then
    { c with Mode := some OfflineValidateMode, TemplatePath := some (positional st 0) }
  else if cmd = ConvertMode then
    { c with Mode := some ConvertMode, TemplatePath := some (positional st 0),
             OutputFilePath := some (positional st 1), PrettyPrint := some st.prettyPrint }
  else if cmd = ConfigureMode then
    { c with Mode := some ConfigureMode }
  else if cmd = CreateStackMode then
    { c with Mode := some CreateStackMode, Stack := some (positional st 0),
             TemplatePath := some (positional st 1), Capabilities := some st.capabilities,
             Parameters := some st.parameters, ParametersFile := some st.parametersFile }
  else if cmd = DestroyStackMode then
    { c with Mode := some DestroyStackMode, Stack := some (positional st 0) }
  else if cmd = MfaMode then
    { c with Mode := some MfaMode }
  else if cmd = UpdateStackMode then
    { c with Mode := some UpdateStackMode, Stack := some (positional st 0),
             TemplatePath := some (positional st 1), Capabilities := some st.capabilities }
  else if cmd = CreateParametersMode then
    { c with Mode := some CreateParametersMode, TemplatePath := some (positional st 0),
             OutputFilePath := some (positional st 1), Parameters := some st.parameters,
             PrettyPrint := some st.prettyPrint }
  else if cmd = SetStackPolicyMode then
    { c with Mode := some SetStackPolicyMode, Block := some st.block,
             Unblock := some st.unblock, Stack := some (positional st 0),
             TemplatePath := some (positional st 1),
             DisableStackTermination := some st.disableStackTermination,
             EnableStackTermination := some st.enableStackTermination }
  else if cmd = SetupSinkMode then
    { c with Mode := some SetupSinkMode }
  else if cmd = DestroySinkMode then
    { c with Mode := some DestroySinkMode }
  else c

/-- The `OTHER FLAGS` block of `ParseCliArguments`: the shared flags are
assigned unconditionally after the mode switch. -/
def setOtherFlags (c : CliArguments) (st : ParsedFlags) : CliArguments :=
  { c with Quiet := some st.quiet, Yes := some st.yes, Verbosity := some st.verbosity,
           MFA := some st.mfa, DurationForMFA := some st.durationForMFA,
           Profile := some st.profile, Region := some st.region,
           Sandbox := some st.sandbox, ConfigurationPath := some st.configurationPath,
           Progress := some st.progress }

/-- Error message of the lower duration bound check (cliparser.go line 234). -/
def durationLowerMsg : String :=
  "You should specify value for duration of MFA token greater than zero"

/-- Error message of the upper duration bound check (cliparser.go line 239). -/
def durationUpperMsg : String :=
  "You should specify value for duration of MFA token smaller than 129600 (3 hours)"

/-- Error message of the verbosity enumeration check (cliparser.go line 244). -/
def verbosityMsg : String :=
  "You specified invalid value for --verbosity flag"

/-- The two sequential duration checks of `ParseCliArguments`
(cliparser.go lines 233–241): reject when `duration < 0`, then reject when
`duration > 129600`; `none` means the checks pass. -/
def durationCheck (d : Int) : Option String :=
  if d < 0 then some durationLowerMsg
  else if d > 129600 then some durationUpperMsg
  else none

/-- Modelled from the spec: `logger.IsVerbosityValid` of the logger package
(not in src/) — the verbosity string must belong to the fixed enumeration
TRACE | DEBUG | INFO | ERROR (spec §4.2). -/
def IsVerbosityValid (s : String) : Bool :=
  s = "TRACE" || s = "DEBUG" || s = "INFO" || s = "ERROR"

/-- The cross-field validation tail of `ParseCliArguments` (lines 233–247):
the duration checks, then the verbosity check; the first failing check's
message is returned, `none` means validation passed. -/
def validateCli (c : CliArguments) : Option String :=
  match durationCheck (c.DurationForMFA.getD 0) with
  | some e => some e
  | none =>
    if c.Verbosity.getD "" ≠ "" ∧ ¬ IsVerbosityValid (c.Verbosity.getD "") then
      some verbosityMsg
    else none

/-- Outcome of a call to `ParseCliArguments`: `terminated` models
`kingpin.MustParse` printing the parse error and exiting the process;
`returned` models the Go function returning `(cliArguments, err)` to its
caller, with `err = none` for a nil error. -/
inductive ParseOutcome
  | terminated (msg : String)
  | returned (cliArguments : CliArguments) (err : Option String)
deriving Repr, DecidableEq

/-- `ParseCliArguments` of cliparser.go on the raw process argument list
`args` (the program name at the head is dropped, as in `app.Parse(args[1:])`):
kingpin parsing, the mode switch, the shared-flag assignments, then the
cross-field validation whose failure is returned as an error value. -/
def ParseCliArguments (args : List String) : ParseOutcome :=
  match kingpinParse (args.drop 1) with
  | .error e => .terminated e
  | .ok (cmd, st) =>
    let c := setOtherFlags (switchAssign cmd st {}) st
    .returned c (validateCli c)

/-- `ParseCliArguments` with the duplicate `createParameters` case removed
from the mode switch, otherwise identical. -/
def ParseCliArgumentsDedup (args : List String) : ParseOutcome :=
  match kingpinParse (args.drop 1) with
  | .error e => .terminated e
  | .ok (cmd, st) =>
    let c := setOtherFlags (switchAssignDedup cmd st {}) st
    .returned c (validateCli c)

/-! ### The mode dispatcher of main.go -/

/-- The downstream collaborator calls that `main` can route a validated
descriptor to (main.go lines 42–108). -/
inductive Operation
  | validateAndEstimateCosts | convert | offlineValidate | configureWizard
  | newStack | destroyStack | updateSessionToken | updateStack
  | configureRemoteSink | destroyRemoteSink | configureParameters
  | setTerminationProtection | applyStackPolicy
deriving Repr, DecidableEq

/-- The sequential mode comparisons of `main` (main.go lines 42–108): the
first matching mode branch names the collaborator invoked; inside the
set-stack-policy branch the termination-protection flags select between
`stack.SetTerminationProtection` and `stack.ApplyStackPolicy`. -/
def mainDispatch (c : CliArguments) : Option Operation :=
  if c.Mode = some ValidateMode then some .validateAndEstimateCosts
  else if c.Mode = some ConvertMode then some .convert
  else if c.Mode = some OfflineValidateMode then some .offlineValidate
  else if c.Mode = some ConfigureMode then some .configureWizard
  else if c.Mode = some CreateStackMode then some .newStack
  else if c.Mode = some DestroyStackMode then some .destroyStack
  else if c.Mode = some MfaMode then some .updateSessionToken
  else if c.Mode = some UpdateStackMode then some .updateStack
  else if c.Mode = some SetupSinkMode then some .configureRemoteSink
  else if c.Mode = some DestroySinkMode then some .destroyRemoteSink
  else if c.Mode = some CreateParametersMode then some .configureParameters
  else if c.Mode = some SetStackPolicyMode then
    if c.DisableStackTermination.getD false || c.EnableStackTermination.getD false then
      some .setTerminationProtection
    else some .applyStackPolicy
  else none

/-! ### The configuration wizard (configurator.go) -/

/-- Modelled from the spec: the `configuration.Configuration` record the
wizard materializes (the configuration package is not in src/; the field
names are the ones `createConfig` assigns, spec §3 "Configuration Record"). -/
structure Configuration where
  DefaultProfile : String
  DefaultRegion : String
  SpecificationURL : List (String × String)
  DefaultDecisionForMFA : Bool
  DefaultDurationForMFA : Int
  DefaultVerbosity : String
deriving Repr, DecidableEq

/-- The static region → resource-specification-URL map of configurator.go
(lines 11–26), as an association list in source order. -/
def resourceSpecificationURL : List (String × String) :=
  [("us-east-2", "https://dnwj8swjjbsbt.cloudfront.net"),
   ("us-east-1", "https://d1uauaxba7bl26.cloudfront.net"),
   ("us-west-1", "https://d68hl49wbnanq.cloudfront.net"),
   ("us-west-2", "https://d201a2mn26r7lk.cloudfront.net"),
   ("ap-south-1", "https://d2senuesg1djtx.cloudfront.net"),
   ("ap-northeast-2", "https://d1ane3fvebulky.cloudfront.net"),
   ("ap-southeast-1", "https://doigdx0kgq9el.cloudfront.net"),
   ("ap-southeast-2", "https://d2stg8d246z9di.cloudfront.net"),
   ("ap-northeast-1", "https://d33vqc0rt9ld30.cloudfront.net"),
   ("ca-central-1", "https://d2s8ygphhesbe7.cloudfront.net"),
   ("eu-central-1", "https://d1mta8qj7i28i2.cloudfront.net"),
   ("eu-west-1", "https://d3teyb21fexa9r.cloudfront.net"),
   ("eu-west-2", "https://d1742qcu2c1ncx.cloudfront.net"),
   ("sa-east-1", "https://d3c9jyj3w509b0.cloudfront.net")]

/-- `makeArrayRegions` of configurator.go (lines 114–131): the ordered
14-entry region catalog, in source index order. -/
def makeArrayRegions : List String :=
  ["us-east-1", "us-east-2", "us-west-1", "us-west-2",
   "ca-central-1", "ca-central-1", "eu-west-1", "eu-west-2",
   "ap-northeast-1", "ap-northeast-2", "ap-southeast-1", "ap-southeast-2",
   "ap-south-1", "sa-east-1"]

/-- One region-selection step, `setRegions` of configurator.go (lines 63–76):
the integer read from the operator is the parameter; returns the Go pair
`(region, err)` where `err = true` signals success (as in the source) and a
rejected index yields the zero-value region `""` and `err = false`. -/
def setRegions (numberRegion : Int) : String × Bool :=
  if numberRegion ≥ 0 ∧ numberRegion < 14 then
    ((makeArrayRegions.get? numberRegion.toNat).getD "", true)
  else ("", false)

/-- One profile-selection step, `setProfile` of configurator.go (lines
78–88): accepts any non-empty profile string. -/
def setProfile (profile : String) : String × Bool :=
  if profile ≠ "" then (profile, true) else ("", false)

/-- The region retry loop of `createConfig` (configurator.go lines 91–95: the
first `setRegions` call plus the `for !err` re-prompt loop), with the
operator's successive inputs as an explicit list: the first accepted input
selects the region; an exhausted list (`none`) models the loop blocking
forever because no remaining input is ever accepted. -/
def setRegionsLoop : List Int → Option String
  | [] => none
  | n :: rest =>
    match setRegions n with
    | (r, true) => some r
    | (_, false) => setRegionsLoop rest

/-- The profile retry loop of `createConfig` (configurator.go lines 96–100),
under the same explicit-input-list convention as `setRegionsLoop`. -/
def setProfileLoop : List String → Option String
  | [] => none
  | p :: rest =>
    match setProfile p with
    | (q, true) => some q
    | (_, false) => setProfileLoop rest

/-- `createConfig` of configurator.go (lines 90–112) with the operator's
region and profile inputs as explicit lists: when both retry loops accept an
input, the Configuration record is built with the accepted region and
profile, the static URL map, and the fixed defaults; `none` means some loop
never accepted an input and the wizard never reaches the record construction. -/
def createConfig (regionInputs : List Int) (profileInputs : List String) :
    Option Configuration :=
  match setRegionsLoop regionInputs, setProfileLoop profileInputs with
  | some r, some p =>
    some { DefaultProfile := p, DefaultRegion := r,
           SpecificationURL := resourceSpecificationURL,
           DefaultDecisionForMFA := false, DefaultDurationForMFA := 3600,
           DefaultVerbosity := "INFO" }
  | _, _ => none

/-- Observable outcome of `findFile`: `alreadyExists` is the branch that only
logs "File already exists in this path"; `saved cfg path` is the branch that
runs the wizard and hands `cfg` to `configuration.SaveToFile` for `path`. -/
inductive FindFileResult
  | alreadyExists
  | saved (cfg : Configuration) (path : String)
deriving Repr, DecidableEq

/-- `findFile` of configurator.go (lines 42–52): the `os.Stat` existence test
on the target path is abstracted as the boolean `fileExists`; when the file
exists the wizard stops at the log message, otherwise it prompts (the
operator inputs are the explicit lists) and saves the constructed record;
`none` means the wizard blocked forever inside `createConfig`. -/
def findFile (path : String) (fileExists : Bool)
    (regionInputs : List Int) (profileInputs : List String) :
    Option FindFileResult :=
  if fileExists then some .alreadyExists
  else
    match createConfig regionInputs profileInputs with
    | some cfg => some (.saved cfg path)
    | none => none

/-! ### Helper lemmas -/

/-- The cross-field validator can only produce nil or one of its three
descriptive messages. -/
lemma validateCli_cases (c : CliArguments) :
    validateCli c = none ∨ validateCli c = some durationLowerMsg ∨
    validateCli c = some durationUpperMsg ∨ validateCli c = some verbosityMsg := by
  unfold validateCli durationCheck
  split_ifs <;> simp

/-- A conditional whose else-branch repeats the same test with the same
then-branch collapses to a single conditional. -/
lemma if_dup {α : Sort u} (p : Prop) [Decidable p] (a b : α) :
    (if p then a else if p then a else b) = if p then a else b := by
  by_cases h : p <;> simp [h]

/-- The two mode-switch variants agree on every command and parse state: the
shadowed duplicate case can never change the result. -/
lemma switchAssign_dedup_eq (cmd : String) (st : ParsedFlags) (c : CliArguments) :
    switchAssign cmd st c = switchAssignDedup cmd st c := by
  unfold switchAssign switchAssignDedup
  rw [if_dup]

/-! ### Claim theorems -/

/-- C1: the claim states that cross-field validation of the MFA duration `d`
succeeds iff `1 ≤ d ≤ 129600`, with `d = 0` rejected by the lower bound.  The
checks of cliparser.go lines 233–241 in fact accept `d = 0`: the lower check
rejects only `d < 0`, so validation succeeds iff `0 ≤ d ≤ 129600`, even though
the flag's own help text promises the range [1, 129600] and the lower-bound
message promises rejection of values not greater than zero.  The two bounds do
have distinct messages. -/
theorem durationCheck_accepts_zero :
    (∀ d : Int, durationCheck d = none ↔ 0 ≤ d ∧ d ≤ 129600) ∧
    durationCheck 0 = none ∧
    durationCheck (-1) = some durationLowerMsg ∧
    durationCheck 129601 = some durationUpperMsg ∧
    durationLowerMsg ≠ durationUpperMsg := by
  refine ⟨fun d => ?_, by decide, by decide, by decide, by decide⟩
  unfold durationCheck
  split_ifs <;> simp <;> omega

/-- C2: parsing `create-stack mystack template.json --capabilities
CAPABILITY_IAM` succeeds (the returned error is nil) and the descriptor has
mode create-stack, stack "mystack", template path "template.json" and
capabilities ["CAPABILITY_IAM"]; every other mode-specific field is nil and
the shared flags hold their defaults. -/
theorem parse_create_stack_end_to_end :
    ParseCliArguments
        ["perun", "create-stack", "mystack", "template.json",
         "--capabilities", "CAPABILITY_IAM"] =
      .returned
        { Mode := some CreateStackMode, Stack := some "mystack",
          TemplatePath := some "template.json",
          Capabilities := some ["CAPABILITY_IAM"], Parameters := some [],
          ParametersFile := some "", Quiet := some false, Yes := some false,
          Verbosity := some "", MFA := some false, DurationForMFA := some 0,
          Profile := some "", Region := some "", Sandbox := some false,
          ConfigurationPath := some "", Progress := some false }
        none := by
  decide

/-- C3: for every validated descriptor in set-stack-policy mode, `main`
routes to `stack.SetTerminationProtection` iff at least one of the
disable-stack-termination / enable-stack-termination flags is set, to
`stack.ApplyStackPolicy` iff neither is, and always to exactly one of the
two. -/
theorem setStackPolicy_dispatch (d e : Bool) (c : CliArguments)
    (hm : c.Mode = some SetStackPolicyMode)
    (hd : c.DisableStackTermination = some d)
    (he : c.EnableStackTermination = some e) :
    (mainDispatch c = some .setTerminationProtection ↔ (d = true ∨ e = true)) ∧
    (mainDispatch c = some .applyStackPolicy ↔ ¬(d = true ∨ e = true)) ∧
    (mainDispatch c = some .setTerminationProtection ∨
      mainDispatch c = some .applyStackPolicy) := by
  unfold mainDispatch
  rw [hm, hd, he]
  cases d <;> cases e <;> decide

/-- C3 witness: a concrete set-stack-policy descriptor with the disable flag
set routes to the termination-protection operation. -/
theorem setStackPolicy_dispatch_witness :
    (mainDispatch
        { Mode := some SetStackPolicyMode, DisableStackTermination := some true,
          EnableStackTermination := some false } =
        some .setTerminationProtection ↔ (true = true ∨ false = true)) ∧
    (mainDispatch
        { Mode := some SetStackPolicyMode, DisableStackTermination := some true,
          EnableStackTermination := some false } =
        some .applyStackPolicy ↔ ¬(true = true ∨ false = true)) ∧
    (mainDispatch
        { Mode := some SetStackPolicyMode, DisableStackTermination := some true,
          EnableStackTermination := some false } =
        some .setTerminationProtection ∨
      mainDispatch
        { Mode := some SetStackPolicyMode, DisableStackTermination := some true,
          EnableStackTermination := some false } =
        some .applyStackPolicy) :=
  setStackPolicy_dispatch true false
    { Mode := some SetStackPolicyMode, DisableStackTermination := some true,
      EnableStackTermination := some false } rfl rfl rfl

/-- C4: the wizard's region-selection step accepts the read integer `n` iff
`0 ≤ n < 14` — the length of the 14-entry catalog — in which case the
selected region is the catalog entry at 0-based index `n`; outside that range
it signals failure so the caller re-prompts. -/
theorem setRegions_accepts_iff (n : Int) :
    ((setRegions n).2 = true ↔ 0 ≤ n ∧ n < (makeArrayRegions.length : Int)) ∧
    (0 ≤ n → n < (makeArrayRegions.length : Int) →
      makeArrayRegions.get? n.toNat = some (setRegions n).1) ∧
    makeArrayRegions.length = 14 := by
  have hlen : makeArrayRegions.length = 14 := rfl
  refine ⟨?_, ?_, hlen⟩
  · unfold setRegions
    split_ifs with h <;> simp [hlen] <;> omega
  · intro h0 h14
    rw [hlen] at h14
    unfold setRegions
    rw [if_pos ⟨h0, by exact_mod_cast h14⟩]
    cases hgx : makeArrayRegions.get? n.toNat with
    | none =>
      have := List.get?_eq_none.mp hgx
      rw [hlen] at this
      omega
    | some x => simp

/-- C5: when a file already exists at the resolved target path, the wizard
reports the existing file and stops: for every possible sequence of operator
inputs the outcome is `alreadyExists` — no prompting happens, no
Configuration record is constructed and nothing is saved. -/
theorem findFile_existing_aborts (path : String) (ri : List Int) (pi : List String) :
    findFile path true ri pi = some .alreadyExists := rfl

/-- C6: whenever the wizard's two retry loops accept an input and a
Configuration record is produced, its region and profile are the accepted
ones and the remaining fields are the fixed defaults: MFA duration 3600,
MFA decision false, verbosity "INFO", and the full static
resource-specification-URL map. -/
theorem createConfig_fields (ri : List Int) (pi : List String) (cfg : Configuration)
    (h : createConfig ri pi = some cfg) :
    setRegionsLoop ri = some cfg.DefaultRegion ∧
    setProfileLoop pi = some cfg.DefaultProfile ∧
    cfg.DefaultDurationForMFA = 3600 ∧
    cfg.DefaultDecisionForMFA = false ∧
    cfg.DefaultVerbosity = "INFO" ∧
    cfg.SpecificationURL = resourceSpecificationURL := by
  unfold createConfig at h
  cases hr : setRegionsLoop ri <;> cases hp : setProfileLoop pi <;> rw [hr, hp] at h
  · cases h
  · cases h
  · cases h
  · injection h with h
    subst h
    exact ⟨rfl, rfl, rfl, rfl, rfl, rfl⟩

/-- C6 witness: with operator inputs 0 (region) and "dev" (profile) the
record has region "us-east-1", profile "dev" and the fixed defaults. -/
theorem createConfig_fields_witness :
    setRegionsLoop [(0 : Int)] = some "us-east-1" ∧
    setProfileLoop ["dev"] = some "dev" ∧
    (3600 : Int) = 3600 ∧ false = false ∧ "INFO" = "INFO" ∧
    resourceSpecificationURL = resourceSpecificationURL :=
  createConfig_fields [0] ["dev"]
    { DefaultProfile := "dev", DefaultRegion := "us-east-1",
      SpecificationURL := resourceSpecificationURL,
      DefaultDecisionForMFA := false, DefaultDurationForMFA := 3600,
      DefaultVerbosity := "INFO" } (by decide)

/-- C7: the region retry loop run on a list of operator inputs in which
out-of-range indices precede an in-range index terminates and selects the
region at the first in-range index; run on inputs that are all out of range
it never accepts (exhausting the inputs yields `none`, i.e. the loop
re-prompts forever). -/
theorem setRegionsLoop_first_valid :
    (∀ (bad : List Int) (n : Int) (rest : List Int),
      (∀ m ∈ bad, ¬(0 ≤ m ∧ m < 14)) → 0 ≤ n → n < 14 →
      setRegionsLoop (bad ++ n :: rest) =
        some ((makeArrayRegions.get? n.toNat).getD "")) ∧
    (∀ l : List Int, (∀ m ∈ l, ¬(0 ≤ m ∧ m < 14)) → setRegionsLoop l = none) := by
  constructor
  · intro bad n rest hbad hn0 hn14
    induction bad with
    | nil =>
      have h : setRegions n = ((makeArrayRegions.get? n.toNat).getD "", true) := by
        unfold setRegions
        rw [if_pos ⟨hn0, hn14⟩]
      simp [setRegionsLoop, h]
    | cons m bad ih =>
      have hm : setRegions m = ("", false) := by
        unfold setRegions
        rw [if_neg (fun hc => hbad m (by simp) ⟨hc.1, hc.2⟩)]
      simp only [List.cons_append, setRegionsLoop, hm]
      exact ih fun x hx => hbad x (by simp [hx])
  · intro l hl
    induction l with
    | nil => rfl
    | cons m rest ih =>
      have hm : setRegions m = ("", false) := by
        unfold setRegions
        rw [if_neg (fun hc => hl m (by simp) ⟨hc.1, hc.2⟩)]
      simp only [setRegionsLoop, hm]
      exact ih fun x hx => hl x (by simp [hx])

/-- C8 counterexample: on the raw argument list `perun not-a-mode` the
unknown mode is not returned to the caller as an error value: the parse
terminates the process (the `kingpin.MustParse` behavior), refuting the claim
that the parse function never terminates the process on such input. -/
theorem parse_unknown_mode_terminates :
    ParseCliArguments ["perun", "not-a-mode"] =
      .terminated "expected command but got not-a-mode" := by
  decide

/-- C8 amended: grammar errors (unknown mode, missing required positional,
malformed flag value) terminate the process inside `kingpin.MustParse`;
whenever `ParseCliArguments` does return to its caller, the returned error is
nil or one of the three descriptive cross-field validation messages. -/
theorem parse_errors_returned_or_terminated (args : List String) :
    (∃ msg, ParseCliArguments args = .terminated msg) ∨
    (∃ c, ParseCliArguments args = .returned c (validateCli c) ∧
      (validateCli c = none ∨ validateCli c = some durationLowerMsg ∨
       validateCli c = some durationUpperMsg ∨
       validateCli c = some verbosityMsg)) := by
  unfold ParseCliArguments
  cases h : kingpinParse (args.drop 1) with
  | error e => exact .inl ⟨e, rfl⟩
  | ok p => exact .inr ⟨_, rfl, validateCli_cases _⟩

/-- C9: the duplicated second create-parameters case of the mode switch is
unreachable: `ParseCliArguments` is extensionally equal to the same function
with the duplicate case removed. -/
theorem ParseCliArguments_dedup_eq (args : List String) :
    ParseCliArguments args = ParseCliArgumentsDedup args := by
  unfold ParseCliArguments ParseCliArgumentsDedup
  cases h : kingpinParse (args.drop 1) with
  | error e => rfl
  | ok p => simp only [switchAssign_dedup_eq]

/-- C10: the 14-entry region catalog holds "ca-central-1" at the two distinct
indices 4 and 5, so its entries are not pairwise distinct, and the key
"eu-central-1" of the resource-specification-URL map occurs at no index of
the catalog, so the wizard can never select it. -/
theorem regionCatalog_duplicate_and_missing :
    makeArrayRegions.get? 4 = some "ca-central-1" ∧
    makeArrayRegions.get? 5 = some "ca-central-1" ∧
    (4 : Nat) ≠ 5 ∧
    ¬ makeArrayRegions.Nodup ∧
    "eu-central-1" ∈ resourceSpecificationURL.map Prod.fst ∧
    "eu-central-1" ∉ makeArrayRegions := by
  decide

end Perun
